import Mathlib

/-!
Verification development for the AeroSyn dashboard (`src/app.py`).

The file shallowly embeds the computational core of the application:
the VARI vegetation-index computation (`calculate_vari_from_file`),
its health classification thresholds, the agronomy lookup functions
(`is_crop_in_season`, `pest_risk_advice_advanced`) and the geocoding
fallback logic (`get_coordinates`).  Machine floats are modelled as
exact rationals; a non-finite float (inf/nan produced by a zero
denominator) is modelled as `Option.none`.  Network calls are modelled
by passing the outcome of each provider call as an explicit argument;
a raised exception during a call is one of the constructors of the
outcome type.
-/

namespace AeroSyn

/-- Python substring test `sub in s` on lists of characters. -/
def listContainsSub (sub : List Char) : List Char → Bool
  | [] => sub.isEmpty
  | c :: rest => sub.isPrefixOf (c :: rest) || listContainsSub sub rest

/-- Python substring test `sub in s` for strings. -/
def strContains (s sub : String) : Bool :=
  listContainsSub sub.toList s.toList

/-- Python `str.lower()`: lower-case every character (the crop names in
the source are ASCII, where `Char.toLower` agrees with Python). -/
def pyLower (s : String) : String := String.mk (s.toList.map Char.toLower)

/-! ### VARI analyzer (app.py lines 221-251 and 392-397) -/

/-- One RGB pixel of the decoded image; `np.array` of an image opened with
`Image.open(...).convert("RGB")` yields uint8 channel values 0..255. -/
structure Pixel where
  r : ℕ
  g : ℕ
  b : ℕ
deriving DecidableEq

/-- A decoded image: rows of pixels.  `convert("RGB")` guarantees exactly
three channels, so the `arr.ndim < 3 or arr.shape[2] < 3` guard of
app.py line 225 can never fire on a decoded image. -/
abbrev Image := List (List Pixel)

/-- Per-pixel VARI (app.py lines 228-234):
`vari = (G - R) / (G + R - B + 1e-6)` with channels normalised to [0,1].
A zero denominator produces inf/nan in numpy, i.e. a non-finite value,
modelled by `none`. -/
def variPixel (p : Pixel) : Option ℚ :=
  let R : ℚ := (p.r : ℚ) / 255
  let G : ℚ := (p.g : ℚ) / 255
  let B : ℚ := (p.b : ℚ) / 255
  let denom : ℚ := (G + R - B) + 1 / 1000000
  if denom = 0 then none else some ((G - R) / denom)

/-- The flattened per-pixel VARI map of the whole image. -/
def variValues (img : Image) : List (Option ℚ) :=
  (img.map (fun row => row.map variPixel)).flatten

/-- app.py lines 236-237: keep the finite values, then those in [-1, 1]. -/
def validVari (img : Image) : List ℚ :=
  ((variValues img).filterMap id).filter (fun v => decide (-1 ≤ v ∧ v ≤ 1))

/-- app.py line 238: `float(np.mean(valid)) if valid.size else 0.0`. -/
def avgVari (img : Image) : ℚ :=
  let valid := validVari img
  if valid.isEmpty then 0 else valid.sum / (valid.length : ℚ)

/-- The three health bands used for the scalar average (app.py 392-397). -/
inductive Health where
  | EXCELLENT : Health
  | MODERATE : Health
  | POOR : Health
deriving DecidableEq

/-- app.py lines 392-397: `avg >= 0.20` excellent, `0.05 <= avg < 0.20`
moderate, otherwise poor. -/
def classifyVari (a : ℚ) : Health :=
  if 1/5 ≤ a then Health.EXCELLENT
  else if 1/20 ≤ a ∧ a < 1/5 then Health.MODERATE
  else Health.POOR

/-- `calculate_vari_from_file` (app.py lines 221-251), with the image
decoding step abstracted as its outcome: `none` when `Image.open`
raises (undecodable file), `some img` when decoding succeeds.  The
returned figure is presentation only; the scalar average is modelled. -/
def calculate_vari_from_file (decoded : Option Image) : Option ℚ :=
  match decoded with
  | none => none
  | some img => some (avgVari img)

/-! ### Agronomy advisor (app.py lines 164-218) -/

/-- app.py line 171. -/
def kharifMsg : String := "Kharif season — ideal for rice planting."

/-- app.py line 175. -/
def rabiMsg : String := "Perfect Rabi season — go for wheat now."

/-- app.py line 176. -/
def notIdealWheatMsg : String := "Not ideal time for wheat planting."

/-- app.py line 177. -/
def genericSeasonMsg : String := "Check local extension services for exact timing."

/-- `is_crop_in_season` (app.py lines 164-177).  `kharif = range(6, 10)`. -/
def is_crop_in_season (crop : String) (current_month : ℕ) : Bool × String :=
  let cropL := pyLower crop
  if strContains cropL "paddy" || strContains cropL "rice" then
    (decide (6 ≤ current_month ∧ current_month < 10), kharifMsg)
  else if strContains cropL "wheat" then
    if current_month = 10 ∨ current_month = 11 ∨ current_month = 12 ∨
        current_month = 1 ∨ current_month = 2 then
      (true, rabiMsg)
    else
      (false, notIdealWheatMsg)
  else
    (true, genericSeasonMsg)

/-- The `hourly` dict of the forecast response: two chronological series
whose entries may be null (`None` in Python). -/
structure HourlyData where
  temperature_2m : List (Option ℚ)
  relative_humidity_2m : List (Option ℚ)

/-- app.py lines 193 and 198. -/
def insufficientDataMsg : String :=
  "Not enough detailed hourly data for a reliable pest risk assessment."

/-- app.py line 218. -/
def lowRiskMsg : String :=
  "🟢 Low pest/disease risk based on recent weather conditions."

/-- app.py line 212 (the f-string with the high-humidity hour count). -/
def riceRiskMsg (hh : ℕ) : String :=
  "🍚 HIGH RISK: Sustained " ++ toString hh ++ "h of high humidity detected."

/-- app.py line 216. -/
def tomatoRiskMsg (hh : ℕ) : String :=
  "🍅 BLIGHT RISK: Mild temp and " ++ toString hh ++
    "h high humidity — consider protective measures."

/-- Python slice `l[-n:]`: the last `min n (length l)` elements. -/
def lastN (n : ℕ) (l : List α) : List α := l.drop (l.length - n)

/-- `pest_risk_advice_advanced` (app.py lines 191-218).  The `hourly_data`
argument is `none` when the dict is missing/empty/not a dict (line 192). -/
def pest_risk_advice_advanced (crop : String) (hourly : Option HourlyData) : String :=
  match hourly with
  | none => insufficientDataMsg
  | some hd =>
    if hd.temperature_2m.length < 1 ∨ hd.relative_humidity_2m.length < 1 then
      insufficientDataMsg
    else
      let temp24 := (lastN 24 hd.temperature_2m).filterMap id
      let hum24 := (lastN 24 hd.relative_humidity_2m).filterMap id
      let avgTemp : Option ℚ :=
        if temp24.isEmpty then none else some (temp24.sum / (temp24.length : ℚ))
      let highHumidityHours : ℕ := (hum24.filter (fun h => decide (90 < h))).length
      let cropL := pyLower crop
      let msg1 : List String :=
        match avgTemp with
        | some a =>
          if (strContains cropL "paddy" || strContains cropL "rice") &&
              (decide (24 ≤ a) && decide (8 ≤ highHumidityHours)) then
            [riceRiskMsg highHumidityHours]
          else []
        | none => []
      let msg2 : List String :=
        match avgTemp with
        | some a =>
          if strContains cropL "tomato" &&
              (decide (a < 28) && decide (10 ≤ highHumidityHours)) then
            [tomatoRiskMsg highHumidityHours]
          else []
        | none => []
      let msgs := msg1 ++ msg2
      if msgs.isEmpty then lowRiskMsg else String.intercalate " " msgs

/-! ### Geocoding fallback (app.py lines 126-142) -/

/-- Outcome of one geocoding HTTP call, as `get_coordinates` observes it:
`error` when `requests.get(...).json()` raises (network or parse
failure); `response rs` when it returns parsed data, with `rs` the list
of (latitude, longitude) results extracted from it.  A non-dict primary
response or a dict without a truthy `results` key is `response []`. -/
inductive GeoFetch where
  | error : GeoFetch
  | response : List (ℚ × ℚ) → GeoFetch

/-- `get_coordinates` (app.py lines 126-142).  Both provider calls sit in
one `try`: an exception anywhere returns `None` via the `except`;
in particular, a primary-call exception skips the fallback call. -/
def get_coordinates (primary fallback : GeoFetch) : Option (ℚ × ℚ) :=
  match primary with
  | GeoFetch.error => none
  | GeoFetch.response results =>
    match results with
    | p :: _ => some p
    | [] =>
      match fallback with
      | GeoFetch.error => none
      | GeoFetch.response [] => none
      | GeoFetch.response (q :: _) => some q

end AeroSyn

namespace AeroSyn

/-! ### Helper lemmas -/

/-- Every element the filter of `validVari` keeps lies in [-1, 1]. -/
lemma validVari_bounds (img : Image) : ∀ x ∈ validVari img, -1 ≤ x ∧ x ≤ 1 := by
  intro x hx
  unfold validVari at hx
  have := (List.mem_filter.mp hx).2
  simpa using this

/-- The mean of a nonempty list of rationals in [-1, 1] is in [-1, 1]. -/
lemma mean_bounds (l : List ℚ) (hne : l ≠ []) (h : ∀ x ∈ l, -1 ≤ x ∧ x ≤ 1) :
    -1 ≤ l.sum / (l.length : ℚ) ∧ l.sum / (l.length : ℚ) ≤ 1 := by
  have hlen : (0 : ℚ) < (l.length : ℚ) := by
    exact_mod_cast List.length_pos.mpr hne
  constructor
  · rw [le_div_iff₀ hlen]
    have h2 := List.card_nsmul_le_sum l (-1) (fun x hx => (h x hx).1)
    have h3 : (l.length : ℚ) * (-1) ≤ l.sum := by
      simpa [nsmul_eq_mul] using h2
    linarith
  · rw [div_le_one hlen]
    have h2 := List.sum_le_card_nsmul l 1 (fun x hx => (h x hx).2)
    simpa [nsmul_eq_mul] using h2

/-! ### Claims -/

/-- C1: the scalar average returned by the VARI computation is the
arithmetic mean of exactly the per-pixel VARI values that are finite and
lie within [-1, 1] (the list `validVari`), and the returned average
always lies in [-1, 1]. -/
theorem vari_average_is_filtered_mean (img : Image) :
    (validVari img ≠ [] →
      avgVari img = (validVari img).sum / ((validVari img).length : ℚ)) ∧
    -1 ≤ avgVari img ∧ avgVari img ≤ 1 := by
  by_cases hne : validVari img = []
  · have ha : avgVari img = 0 := by simp [avgVari, hne]
    exact ⟨fun h => absurd hne h, by rw [ha]; norm_num, by rw [ha]; norm_num⟩
  · have ha : avgVari img = (validVari img).sum / ((validVari img).length : ℚ) := by
      simp [avgVari, hne]
    have hm := mean_bounds (validVari img) hne (validVari_bounds img)
    exact ⟨fun _ => ha, by rw [ha]; exact hm.1, by rw [ha]; exact hm.2⟩

/-- C1 witness: a 1x1 mid-gray image has one valid pixel value 0, average
0, and the average lies in [-1, 1]. -/
theorem vari_average_is_filtered_mean_witness :
    avgVari [[⟨100, 100, 100⟩]] = 0 ∧
    -1 ≤ avgVari [[⟨100, 100, 100⟩]] ∧ avgVari [[⟨100, 100, 100⟩]] ≤ 1 := by
  have h := vari_average_is_filtered_mean [[⟨100, 100, 100⟩]]
  have hv : validVari [[⟨100, 100, 100⟩]] = [0] := by
    norm_num [validVari, variValues, variPixel, List.filterMap_cons, List.filter_cons,
      decide_eq_true_eq]
  refine ⟨?_, h.2.1, h.2.2⟩
  have he := h.1 (by rw [hv]; simp)
  rw [he, hv]
  norm_num

/-- C2: the health classification of the scalar average: `a ≥ 0.20` is
EXCELLENT, `0.05 ≤ a < 0.20` is MODERATE, `a < 0.05` is POOR, and the
boundaries are exact: 0.20 is EXCELLENT and 0.05 is MODERATE. -/
theorem classify_thresholds (a : ℚ) :
    (1/5 ≤ a → classifyVari a = Health.EXCELLENT) ∧
    (1/20 ≤ a → a < 1/5 → classifyVari a = Health.MODERATE) ∧
    (a < 1/20 → classifyVari a = Health.POOR) ∧
    classifyVari (1/5) = Health.EXCELLENT ∧
    classifyVari (1/20) = Health.MODERATE := by
  refine ⟨fun h => ?_, fun h1 h2 => ?_, fun h => ?_, ?_, ?_⟩
  · simp only [classifyVari]
    rw [if_pos h]
  · simp only [classifyVari]
    rw [if_neg (not_le.mpr h2), if_pos ⟨h1, h2⟩]
  · have hA : ¬ (1/5 ≤ a) := not_le.mpr (by linarith)
    have hB : ¬ (1/20 ≤ a ∧ a < 1/5) := fun hc => absurd hc.1 (not_le.mpr h)
    simp only [classifyVari]
    rw [if_neg hA, if_neg hB]
  · simp only [classifyVari]
    rw [if_pos le_rfl]
  · simp only [classifyVari]
    rw [if_neg (by norm_num), if_pos (by norm_num)]

/-- C2 witness: concrete inputs in each band and at each boundary. -/
theorem classify_thresholds_witness :
    classifyVari (1/4) = Health.EXCELLENT ∧
    classifyVari (1/10) = Health.MODERATE ∧
    classifyVari 0 = Health.POOR := by
  refine ⟨(classify_thresholds (1/4)).1 (by norm_num),
    (classify_thresholds (1/10)).2.1 (by norm_num) (by norm_num),
    (classify_thresholds 0).2.2.1 (by norm_num)⟩

/-- C8: the VARI computation fails exactly when the image cannot be
decoded; every decodable image (three-channel after `convert("RGB")`)
produces a result. -/
theorem compute_vari_fails_iff_decode_fails (d : Option Image) :
    (calculate_vari_from_file d = none ↔ d = none) ∧
    ∀ img : Image, calculate_vari_from_file (some img) = some (avgVari img) := by
  constructor
  · cases d <;> simp [calculate_vari_from_file]
  · intro img
    rfl

/-- C9: when no per-pixel value is both finite and in [-1, 1], the
computation does not fail: it returns average exactly 0, classified
POOR. -/
theorem vari_empty_valid_average_zero (img : Image) (h : validVari img = []) :
    calculate_vari_from_file (some img) = some 0 ∧
    avgVari img = 0 ∧ classifyVari (avgVari img) = Health.POOR := by
  have ha : avgVari img = 0 := by simp [avgVari, h]
  refine ⟨by simp [calculate_vari_from_file, ha], ha, ?_⟩
  rw [ha]
  simp only [classifyVari]
  norm_num

/-- C9 witness: the 1x1 image with pixel (0,1,2) has per-pixel VARI below
-1, so its valid list is empty; the average is 0 and the class POOR. -/
theorem vari_empty_valid_average_zero_witness :
    calculate_vari_from_file (some [[⟨0, 1, 2⟩]]) = some 0 ∧
    avgVari [[⟨0, 1, 2⟩]] = 0 ∧
    classifyVari (avgVari [[⟨0, 1, 2⟩]]) = Health.POOR :=
  vari_empty_valid_average_zero [[⟨0, 1, 2⟩]] (by
    norm_num [validVari, variValues, variPixel, List.filterMap_cons, List.filter_cons,
      decide_eq_true_eq])

/-- C4 counterexample: the claim "NotFound is returned only if both
providers fail" is false: when the primary call raises (network/parse
failure) the `except` block returns `None` without querying the
secondary, even though the secondary has a usable result. -/
theorem geocode_counterexample :
    ¬ (∀ p f : GeoFetch, get_coordinates p f = none →
        f = GeoFetch.error ∨ f = GeoFetch.response []) := by
  intro h
  rcases h GeoFetch.error (GeoFetch.response [(1, 2)]) rfl with h1 | h1 <;> simp at h1

/-- C4 amended: the secondary provider is consulted only when the primary
call returns parsed data without a usable result; a primary exception
returns NotFound directly, so NotFound is returned iff the primary
errored, or the primary had no result and the secondary errored or had
no result; a nonempty primary result list returns its head. -/
theorem geocode_amended (p f : GeoFetch) :
    (get_coordinates p f = none ↔
      p = GeoFetch.error ∨
        (p = GeoFetch.response [] ∧
          (f = GeoFetch.error ∨ f = GeoFetch.response []))) ∧
    (∀ pt rest f2, get_coordinates (GeoFetch.response (pt :: rest)) f2 = some pt) ∧
    (∀ pt rest,
      get_coordinates (GeoFetch.response []) (GeoFetch.response (pt :: rest)) = some pt) := by
  refine ⟨?_, fun pt rest f2 => rfl, fun pt rest => rfl⟩
  cases p with
  | error => simp [get_coordinates]
  | response rs =>
    cases rs with
    | nil =>
      cases f with
      | error => simp [get_coordinates]
      | response fs => cases fs <;> simp [get_coordinates]
    | cons a l => simp [get_coordinates]

end AeroSyn

namespace AeroSyn

/-- C5 counterexample: with one unusable (null) temperature sample and one
usable humidity sample there are fewer than 1 usable temperature
samples, yet the function returns the low-risk message, not the
insufficient-data message: the length check counts null entries. -/
theorem pest_insufficient_counterexample :
    pest_risk_advice_advanced "Paddy (Rice)" (some ⟨[none], [some 95]⟩) = lowRiskMsg ∧
    lowRiskMsg ≠ insufficientDataMsg ∧
    (([none] : List (Option ℚ)).filterMap id).length < 1 := by
  refine ⟨rfl, by decide, by simp⟩

/-- C5 amended: the insufficient-data message is returned when the hourly
dict is missing or when the raw temperature or humidity list is empty,
where raw length counts null (unusable) entries; a list holding only a
null sample passes the check, and then no rule can fire, so the fixed
low-risk message is returned for every crop. -/
theorem pest_insufficient_amended (crop : String) (hd : HourlyData)
    (h : hd.temperature_2m = [] ∨ hd.relative_humidity_2m = []) :
    pest_risk_advice_advanced crop none = insufficientDataMsg ∧
    pest_risk_advice_advanced crop (some hd) = insufficientDataMsg ∧
    pest_risk_advice_advanced crop (some ⟨[none], [some 95]⟩) = lowRiskMsg := by
  refine ⟨rfl, ?_, ?_⟩
  · rcases h with h | h <;> simp [pest_risk_advice_advanced, h]
  · simp [pest_risk_advice_advanced, lastN]

/-- C5 amended witness: concrete crop and empty temperature list. -/
theorem pest_insufficient_amended_witness :
    pest_risk_advice_advanced "Tomato" none = insufficientDataMsg ∧
    pest_risk_advice_advanced "Tomato" (some ⟨[], [some 80]⟩) = insufficientDataMsg ∧
    pest_risk_advice_advanced "Tomato" (some ⟨[none], [some 95]⟩) = lowRiskMsg :=
  pest_insufficient_amended "Tomato" ⟨[], [some 80]⟩ (Or.inl rfl)

/-- C7: for a wheat-like crop name (and not rice-like, which is matched
first) the season advice is (true, rabi message) exactly in months
10, 11, 12, 1, 2 and (false, not-ideal message) otherwise; in
particular month 11 is in season and month 6 is not; unknown crop names
get (true, generic check-local-guidance message). -/
theorem wheat_season_rule (crop : String) (m : ℕ) (hm1 : 1 ≤ m) (hm2 : m ≤ 12)
    (hw : strContains (pyLower crop) "wheat" = true)
    (hnr : (strContains (pyLower crop) "paddy" || strContains (pyLower crop) "rice") = false) :
    (is_crop_in_season crop m =
      if m = 10 ∨ m = 11 ∨ m = 12 ∨ m = 1 ∨ m = 2 then (true, rabiMsg)
      else (false, notIdealWheatMsg)) ∧
    is_crop_in_season "Wheat" 11 = (true, rabiMsg) ∧
    is_crop_in_season "Wheat" 6 = (false, notIdealWheatMsg) ∧
    (∀ c : String,
      (strContains (pyLower c) "paddy" || strContains (pyLower c) "rice") = false →
      strContains (pyLower c) "wheat" = false →
      is_crop_in_season c m = (true, genericSeasonMsg)) := by
  refine ⟨?_, rfl, rfl, fun c hc1 hc2 => ?_⟩
  · simp [is_crop_in_season, hw, hnr]
  · simp [is_crop_in_season, hc1, hc2]

/-- C7 witness: concrete wheat-like and unknown crop names in month 3. -/
theorem wheat_season_rule_witness :
    is_crop_in_season "Winter Wheat" 3 = (false, notIdealWheatMsg) ∧
    is_crop_in_season "Cotton" 3 = (true, genericSeasonMsg) := by
  have h := wheat_season_rule "Winter Wheat" 3 (by decide) (by decide) (by decide) (by decide)
  exact ⟨by rw [h.1]; rfl, h.2.2.2 "Cotton" (by decide) (by decide)⟩

/-- C10: for a rice-like crop name the returned message is the fixed
kharif string for every month, also out of season, and the in-season
boolean is true exactly for months 6 through 9. -/
theorem rice_season_rule (crop : String) (m : ℕ)
    (hr : (strContains (pyLower crop) "paddy" || strContains (pyLower crop) "rice") = true) :
    is_crop_in_season crop m = (decide (6 ≤ m ∧ m < 10), kharifMsg) ∧
    (is_crop_in_season crop m).2 = kharifMsg ∧
    ((is_crop_in_season crop m).1 = true ↔ 6 ≤ m ∧ m ≤ 9) := by
  have he : is_crop_in_season crop m = (decide (6 ≤ m ∧ m < 10), kharifMsg) := by
    simp [is_crop_in_season, hr]
  refine ⟨he, by rw [he], ?_⟩
  rw [he]
  simp only [decide_eq_true_eq]
  omega

/-- C10 witness: out-of-season month 12 keeps the kharif message with a
false boolean; month 7 is in season. -/
theorem rice_season_rule_witness :
    is_crop_in_season "Paddy (Rice)" 12 = (false, kharifMsg) ∧
    is_crop_in_season "Paddy (Rice)" 7 = (true, kharifMsg) := by
  have h12 := (rice_season_rule "Paddy (Rice)" 12 (by decide)).1
  have h7 := (rice_season_rule "Paddy (Rice)" 7 (by decide)).1
  exact ⟨by rw [h12]; rfl, by rw [h7]; rfl⟩

end AeroSyn

namespace AeroSyn

/-- A uniform image: `rows` rows of `cols` copies of one pixel. -/
def solidImage (rows cols : ℕ) (p : Pixel) : Image :=
  List.replicate rows (List.replicate cols p)

lemma filterMap_id_replicate_some (n : ℕ) (v : ℚ) :
    (List.replicate n (some v)).filterMap id = List.replicate n v := by
  induction n with
  | zero => simp
  | succ k ih => simp [List.replicate_succ, ih]

lemma filter_replicate_of_pos (n : ℕ) (v : ℚ) (p : ℚ → Bool) (h : p v = true) :
    (List.replicate n v).filter p = List.replicate n v := by
  induction n with
  | zero => simp
  | succ k ih => simp [List.replicate_succ, ih, h]

/-- For a uniform image whose single pixel value is finite and in [-1,1],
the average is that value. -/
lemma avgVari_solid (rows cols : ℕ) (hr : rows ≠ 0) (hc : cols ≠ 0)
    (q : Pixel) (v : ℚ) (hv : variPixel q = some v) (hb1 : -1 ≤ v) (hb2 : v ≤ 1) :
    avgVari (solidImage rows cols q) = v := by
  have h1 : validVari (solidImage rows cols q) = List.replicate (rows * cols) v := by
    unfold validVari variValues solidImage
    rw [List.map_replicate, List.map_replicate, List.flatten_replicate_replicate, hv,
      filterMap_id_replicate_some, filter_replicate_of_pos]
    simp [hb1, hb2]
  have hn : rows * cols ≠ 0 := Nat.mul_ne_zero hr hc
  rw [avgVari]
  simp only [h1]
  rw [if_neg (by simp [List.isEmpty_iff, hn])]
  rw [List.sum_replicate, List.length_replicate, nsmul_eq_mul]
  exact mul_div_cancel_left₀ v (Nat.cast_ne_zero.mpr hn)

end AeroSyn

namespace AeroSyn

/-- C3: the per-pixel VARI is (G - R) / (G + R - B + 1e-6) on channels
normalised to [0,1]; a solid pure-green image gives 1/(1 + 1e-6) at
every pixel and average classified EXCELLENT; a solid pure-red image
gives -1/(1 + 1e-6) at every pixel and average classified POOR. -/
theorem vari_pixel_formula_and_solids (p : Pixel) (rows cols : ℕ)
    (hden : ((p.g : ℚ)/255 + (p.r : ℚ)/255 - (p.b : ℚ)/255) + 1/1000000 ≠ 0)
    (hr : rows ≠ 0) (hc : cols ≠ 0) :
    variPixel p = some (((p.g : ℚ)/255 - (p.r : ℚ)/255) /
      (((p.g : ℚ)/255 + (p.r : ℚ)/255 - (p.b : ℚ)/255) + 1/1000000)) ∧
    (∀ q ∈ (solidImage rows cols (⟨0, 255, 0⟩ : Pixel)).flatten,
      variPixel q = some (1000000/1000001)) ∧
    avgVari (solidImage rows cols ⟨0, 255, 0⟩) = 1000000/1000001 ∧
    classifyVari (avgVari (solidImage rows cols ⟨0, 255, 0⟩)) = Health.EXCELLENT ∧
    (∀ q ∈ (solidImage rows cols (⟨255, 0, 0⟩ : Pixel)).flatten,
      variPixel q = some (-(1000000/1000001))) ∧
    avgVari (solidImage rows cols ⟨255, 0, 0⟩) = -(1000000/1000001) ∧
    classifyVari (avgVari (solidImage rows cols ⟨255, 0, 0⟩)) = Health.POOR := by
  have hgreen : variPixel ⟨0, 255, 0⟩ = some (1000000/1000001) := by
    norm_num [variPixel]
  have hred : variPixel ⟨255, 0, 0⟩ = some (-(1000000/1000001)) := by
    norm_num [variPixel]
  have hag := avgVari_solid rows cols hr hc _ _ hgreen (by norm_num) (by norm_num)
  have har := avgVari_solid rows cols hr hc _ _ hred (by norm_num) (by norm_num)
  refine ⟨?_, ?_, hag, ?_, ?_, har, ?_⟩
  · simp only [variPixel]
    rw [if_neg hden]
  · intro q hq
    have hq2 : q = ⟨0, 255, 0⟩ := by
      simp [solidImage] at hq
      exact hq.2
    rw [hq2, hgreen]
  · rw [hag]
    simp only [classifyVari]
    rw [if_pos (by norm_num)]
  · intro q hq
    have hq2 : q = ⟨255, 0, 0⟩ := by
      simp [solidImage] at hq
      exact hq.2
    rw [hq2, hred]
  · rw [har]
    simp only [classifyVari]
    rw [if_neg (by norm_num), if_neg (by norm_num)]

/-- C3 witness: the 1x1 pure-green and pure-red images. -/
theorem vari_pixel_formula_witness :
    variPixel ⟨0, 255, 0⟩ = some (1000000/1000001) ∧
    classifyVari (avgVari (solidImage 1 1 ⟨0, 255, 0⟩)) = Health.EXCELLENT ∧
    variPixel ⟨255, 0, 0⟩ = some (-(1000000/1000001)) ∧
    classifyVari (avgVari (solidImage 1 1 ⟨255, 0, 0⟩)) = Health.POOR := by
  have h := vari_pixel_formula_and_solids ⟨0, 255, 0⟩ 1 1 (by norm_num) (by decide) (by decide)
  exact ⟨h.2.1 _ (by simp [solidImage]), h.2.2.2.1,
    h.2.2.2.2.1 _ (by simp [solidImage]), h.2.2.2.2.2.2⟩

end AeroSyn

namespace AeroSyn

/-- Joining a single message with separators is the message itself. -/
lemma intercalate_single (sep a : String) : String.intercalate sep [a] = a := rfl

/-- C6: for a rice-like (and not tomato-like) crop with at least one
usable sample in each series, the result is the high-risk message with
the high-humidity hour count exactly when the mean of the usable values
among the last 24 temperature samples is at least 24 and at least 8 of
the usable values among the last 24 humidity samples exceed 90;
otherwise the fixed low-risk message.  When several rules fire the
messages are joined with spaces, shown on a crop matching both the rice
and the tomato rule. -/
theorem pest_rice_rule (crop : String) (temps hums : List (Option ℚ))
    (hrice : (strContains (pyLower crop) "paddy" || strContains (pyLower crop) "rice") = true)
    (htom : strContains (pyLower crop) "tomato" = false)
    (ht : temps.filterMap id ≠ []) (hh : hums.filterMap id ≠ []) :
    pest_risk_advice_advanced crop (some ⟨temps, hums⟩) =
      (if ((lastN 24 temps).filterMap id) ≠ [] ∧
          24 ≤ ((lastN 24 temps).filterMap id).sum /
            (((lastN 24 temps).filterMap id).length : ℚ) ∧
          8 ≤ (((lastN 24 hums).filterMap id).filter (fun x => decide (90 < x))).length
        then riceRiskMsg
          ((((lastN 24 hums).filterMap id).filter (fun x => decide (90 < x))).length)
        else lowRiskMsg) ∧
    pest_risk_advice_advanced "rice tomato"
        (some ⟨[some 25], List.replicate 10 (some 95)⟩) =
      riceRiskMsg 10 ++ " " ++ tomatoRiskMsg 10 := by
  constructor
  · have h1 : temps ≠ [] := fun e => ht (by simp [e])
    have h2 : hums ≠ [] := fun e => hh (by simp [e])
    have hlt : ¬ (temps.length < 1 ∨ hums.length < 1) := by
      simp [Nat.lt_one_iff, List.length_eq_zero, h1, h2]
    simp only [pest_risk_advice_advanced]
    rw [if_neg hlt]
    generalize (lastN 24 temps).filterMap id = T
    generalize ((lastN 24 hums).filterMap id).filter (fun x => decide (90 < x)) = H
    by_cases hT : T = []
    · simp [hT]
    · by_cases c1 : 24 ≤ T.sum / ((T.length : ℕ) : ℚ)
      · by_cases c2 : 8 ≤ H.length
        · simp [hrice, htom, hT, c1, c2, intercalate_single]
        · simp [hrice, htom, hT, c1, c2]
      · simp [htom, hT, c1]
  · norm_num [pest_risk_advice_advanced, lastN, List.filterMap_cons, List.filter_cons,
      decide_eq_true_eq, List.replicate]
    decide

end AeroSyn

namespace AeroSyn

/-- C6 witness: one usable 30-degree temperature sample and eight usable
95-percent humidity samples fire the rice rule. -/
theorem pest_rice_rule_witness :
    pest_risk_advice_advanced "Paddy (Rice)"
      (some ⟨[some 30], List.replicate 8 (some 95)⟩) = riceRiskMsg 8 := by
  have h := pest_rice_rule "Paddy (Rice)" [some 30] (List.replicate 8 (some 95))
    (by decide) (by decide) (by decide) (by decide)
  rw [h.1]
  norm_num [lastN, List.filterMap_cons, List.filter_cons, decide_eq_true_eq,
    List.replicate]

end AeroSyn

namespace AeroSyn

/-- C4 amended witness: a parsed-but-empty primary result falls through to
the secondary, whose first result is returned. -/
theorem geocode_amended_witness :
    get_coordinates (GeoFetch.response []) (GeoFetch.response [(5, 6)]) = some (5, 6) :=
  (geocode_amended (GeoFetch.response []) (GeoFetch.response [(5, 6)])).2.2 (5, 6) []

/-- C8 witness: a concrete decodable image produces a result. -/
theorem compute_vari_fails_iff_decode_fails_witness :
    calculate_vari_from_file (some [[⟨10, 20, 30⟩]]) = some (avgVari [[⟨10, 20, 30⟩]]) :=
  (compute_vari_fails_iff_decode_fails (some [[⟨10, 20, 30⟩]])).2 [[⟨10, 20, 30⟩]]

end AeroSyn
